import Mathlib

/-!
Verification of the first-person movement and collision-resolution subsystem
of the walkthrough viewer (`src/main.js`).

The JavaScript source keeps all simulation state in module-level mutable
variables and updates it in event handlers plus one per-frame `animate` tick.
Here that state is a `PlayerState` record over exact rationals, and each
handler / tick phase is an explicit function on it:

* `Box3.intersects` is THREE.Box3.intersectsBox (closed-interval AABB overlap);
  `boxFromCenterSize` is Box3.setFromCenterAndSize.
* `checkHorizontalCollision`, `checkVerticalCollision`, `checkHeadCollision`
  and `getValidMovement` are the functions of the same names in main.js.
* `pressSpace`, `pressKeyC`, `releaseControl` are the Space / KeyC keydown and
  Control keyup handlers.
* The fps branch of `animate` is split exactly along the source's phases:
  `horizontalStep` (desired-position + sliding resolution), `verticalStep`
  (gravity integration and the up/down branch, whose two arms are `upBranch`
  and `downBranch`), and `fallbackStep` (the fallback ground clamp);
  `tick` is their composition.  The world-space horizontal displacement that
  main.js derives from the camera orientation and the input flags is passed to
  `tick` as the parameter `disp`; the displacement computation itself is
  modelled separately (`dispVec` below) because its normalisation step
  introduces square roots.
* `activateOrbitControls` / `activateFPSControls` are the camera-mode
  switchers, restricted to the state they mutate (enabled flags, active mode,
  camera position).
-/

/-- World-space vector, `THREE.Vector3` restricted to exact rationals. -/
structure Vec3 where
  x : ℚ
  y : ℚ
  z : ℚ
deriving DecidableEq

/-- Axis-aligned box, `THREE.Box3`. -/
structure Box3 where
  min : Vec3
  max : Vec3
deriving DecidableEq

/-- `THREE.Box3.intersectsBox`: boxes are separated when some axis interval is
strictly beyond the other box; touching faces count as intersecting. -/
def Box3.intersects (a b : Box3) : Bool :=
  !(decide (b.max.x < a.min.x) || decide (b.min.x > a.max.x) ||
    decide (b.max.y < a.min.y) || decide (b.min.y > a.max.y) ||
    decide (b.max.z < a.min.z) || decide (b.min.z > a.max.z))

/-- `THREE.Box3.setFromCenterAndSize`. -/
def boxFromCenterSize (c s : Vec3) : Box3 :=
  ⟨⟨c.x - s.x / 2, c.y - s.y / 2, c.z - s.z / 2⟩,
   ⟨c.x + s.x / 2, c.y + s.y / 2, c.z + s.z / 2⟩⟩

/-- `window.addCollisionBox(x, y, z, width, height, depth)`. -/
def addCollisionBox (x y z width height depth : ℚ) : Box3 :=
  ⟨⟨x - width / 2, y - height / 2, z - depth / 2⟩,
   ⟨x + width / 2, y + height / 2, z + depth / 2⟩⟩

/-- `cameraBoxSize = new THREE.Vector3(0.8, 1.8, 0.8)`. -/
def cameraBoxSize : Vec3 := ⟨4/5, 9/5, 4/5⟩

def gravity : ℚ := -20
def jumpStrength : ℚ := 5
def maxBunnyHop : ℚ := 5
def crouchOffset : ℚ := -7/10
def crouchSpeed : ℚ := 1
def groundHeight : ℚ := -19
def runSpeed : ℚ := 8
def initialBaseSpeed : ℚ := 4
def initialBunnyHop : ℚ := 1
def headHeight : ℚ := 3/10

/-- `checkHorizontalCollision(position)`: full player box centered at
`(x, y + height/2, z)` against every registered collider. -/
def checkHorizontalCollision (regs : List Box3) (position : Vec3) : Bool :=
  let testBox := boxFromCenterSize
    ⟨position.x, position.y + cameraBoxSize.y / 2, position.z⟩ cameraBoxSize
  regs.any fun b => testBox.intersects b

inductive VDir where
  | up
  | down
deriving DecidableEq

/-- `checkVerticalCollision(position, direction)`: the test box is centered at
head half-height for `up` and at foot level for `down`; returns the first
intersecting collider (insertion order), if any. -/
def checkVerticalCollision (regs : List Box3) (position : Vec3) (dir : VDir) : Option Box3 :=
  let testY := match dir with
    | VDir.up => position.y + cameraBoxSize.y / 2
    | VDir.down => position.y
  let testBox := boxFromCenterSize ⟨position.x, testY, position.z⟩ cameraBoxSize
  regs.find? fun b => testBox.intersects b

/-- `checkHeadCollision(position)`: a thin box of height 0.3 at the very top of
the player box. -/
def checkHeadCollision (regs : List Box3) (position : Vec3) : Option Box3 :=
  let testBox := boxFromCenterSize
    ⟨position.x, position.y + cameraBoxSize.y - headHeight / 2, position.z⟩
    ⟨cameraBoxSize.x, headHeight, cameraBoxSize.z⟩
  regs.find? fun b => testBox.intersects b

/-- `getValidMovement(currentPos, desiredPos)`: full move, then X-only, then
Z-only, else stay. -/
def getValidMovement (regs : List Box3) (currentPos desiredPos : Vec3) : Vec3 :=
  if !(checkHorizontalCollision regs desiredPos) then desiredPos
  else
    let xOnlyPos : Vec3 := ⟨desiredPos.x, currentPos.y, currentPos.z⟩
    if !(checkHorizontalCollision regs xOnlyPos) then xOnlyPos
    else
      let zOnlyPos : Vec3 := ⟨currentPos.x, currentPos.y, desiredPos.z⟩
      if !(checkHorizontalCollision regs zOnlyPos) then zOnlyPos
      else currentPos

/-- The four directional key flags (`move.forward` etc.). -/
structure MoveFlags where
  forward : Bool
  backward : Bool
  left : Bool
  right : Bool
deriving DecidableEq

/-- `!move.forward && !move.backward && !move.left && !move.right`, the idle
condition guarding both bunny-hop resets. -/
def MoveFlags.idle (m : MoveFlags) : Bool :=
  !m.forward && !m.backward && !m.left && !m.right

/-- The module-level mutable simulation state of main.js that the claims are
about: camera position, vertical velocity, jump / crouch / run flags, the
bunny-hop multiplier and the two speed slots swapped by crouching. -/
structure PlayerState where
  pos : Vec3
  verticalVelocity : ℚ
  canJump : Bool
  bunnyHopMultiplier : ℚ
  isCrouching : Bool
  isRunning : Bool
  baseSpeed : ℚ
  normalSpeed : ℚ
  move : MoveFlags
deriving DecidableEq

/-- The `Space` keydown handler: gated by `canJump && !isCrouching` and a clear
head check; on success sets the jump impulse, clears can-jump, and grows the
bunny-hop multiplier multiplicatively while running. -/
def pressSpace (regs : List Box3) (s : PlayerState) : PlayerState :=
  if s.canJump && !s.isCrouching then
    match checkHeadCollision regs s.pos with
    | none =>
        { s with verticalVelocity := jumpStrength
                 canJump := false
                 bunnyHopMultiplier :=
                   if s.isRunning then min (s.bunnyHopMultiplier * (11/10)) maxBunnyHop
                   else s.bunnyHopMultiplier }
    | some _ => s
  else s

/-- The `KeyC` keydown handler: enters crouch (only when not already
crouching), lowering the camera and swapping the base speed. -/
def pressKeyC (s : PlayerState) : PlayerState :=
  if !s.isCrouching then
    { s with isCrouching := true
             pos := { s.pos with y := s.pos.y + crouchOffset }
             normalSpeed := s.baseSpeed
             baseSpeed := crouchSpeed }
  else s

/-- The `ControlLeft`/`ControlRight` keyup handler: leaves crouch only when the
head check at the stand-up position is clear; otherwise the stand-up is
refused and the state is unchanged. -/
def releaseControl (regs : List Box3) (s : PlayerState) : PlayerState :=
  if s.isCrouching then
    let standUpPos : Vec3 := ⟨s.pos.x, s.pos.y - crouchOffset, s.pos.z⟩
    match checkHeadCollision regs standUpPos with
    | none =>
        { s with isCrouching := false
                 pos := { s.pos with y := s.pos.y - crouchOffset }
                 baseSpeed := s.normalSpeed }
    | some _ => s
  else s

/-- Horizontal phase of the fps branch of `animate`: the desired position is
the current one displaced horizontally by `disp` (the world-space displacement
main.js computes from camera orientation, input flags, speed and `delta`),
then validated by the sliding resolver. -/
def horizontalStep (regs : List Box3) (disp : ℚ × ℚ) (s : PlayerState) : PlayerState :=
  let desiredPos : Vec3 := ⟨s.pos.x + disp.1, s.pos.y, s.pos.z + disp.2⟩
  { s with pos := getValidMovement regs s.pos desiredPos }

/-- Ascending arm of the vertical resolution: on a hit, zero the velocity and
snap just below the obstruction's underside. -/
def upBranch (regs : List Box3) (nextPos : Vec3) (nextY vv : ℚ) (s : PlayerState) : PlayerState :=
  match checkVerticalCollision regs nextPos VDir.up with
  | some b =>
      { s with verticalVelocity := 0
               pos := { s.pos with y := b.min.y - cameraBoxSize.y + 1/10 } }
  | none =>
      { s with verticalVelocity := vv, pos := { s.pos with y := nextY } }

/-- Descending arm of the vertical resolution: on a hit, zero the velocity, set
can-jump, stand exactly on the collider top, and reset the bunny-hop
multiplier when idle. -/
def downBranch (regs : List Box3) (nextPos : Vec3) (nextY vv : ℚ) (s : PlayerState) : PlayerState :=
  match checkVerticalCollision regs nextPos VDir.down with
  | some b =>
      { s with verticalVelocity := 0
               canJump := true
               pos := { s.pos with y := b.max.y }
               bunnyHopMultiplier := if s.move.idle then 1 else s.bunnyHopMultiplier }
  | none =>
      { s with verticalVelocity := vv, pos := { s.pos with y := nextY } }

/-- Vertical phase of `animate`: integrate gravity, then branch on the strict
sign of the integrated velocity. -/
def verticalStep (regs : List Box3) (dt : ℚ) (s : PlayerState) : PlayerState :=
  let vv := s.verticalVelocity + gravity * dt
  let nextY := s.pos.y + vv * dt
  let nextPos : Vec3 := ⟨s.pos.x, nextY, s.pos.z⟩
  if vv > 0 then upBranch regs nextPos nextY vv s
  else downBranch regs nextPos nextY vv s

/-- `isCrouching ? groundHeight + crouchOffset : groundHeight`. -/
def currentGroundOf (s : PlayerState) : ℚ :=
  if s.isCrouching then groundHeight + crouchOffset else groundHeight

/-- Fallback ground clamp at the end of the fps branch of `animate`. -/
def fallbackStep (s : PlayerState) : PlayerState :=
  if s.pos.y ≤ currentGroundOf s then
    { s with pos := { s.pos with y := currentGroundOf s }
             verticalVelocity := 0
             canJump := true
             bunnyHopMultiplier := if s.move.idle then 1 else s.bunnyHopMultiplier }
  else s

/-- One fps-mode frame of `animate`, given the elapsed time and the world-space
horizontal displacement for this frame. -/
def tick (regs : List Box3) (dt : ℚ) (disp : ℚ × ℚ) (s : PlayerState) : PlayerState :=
  fallbackStep (verticalStep regs dt (horizontalStep regs disp s))

/-- The vertical phase's descending branch finds a collider under the feet. -/
def landsOf (regs : List Box3) (dt : ℚ) (s : PlayerState) : Bool :=
  !(decide (s.verticalVelocity + gravity * dt > 0)) &&
    (checkVerticalCollision regs
      ⟨s.pos.x, s.pos.y + (s.verticalVelocity + gravity * dt) * dt, s.pos.z⟩
      VDir.down).isSome

/-- This frame's descending branch found a collider under the feet. -/
def landsOnCollider (regs : List Box3) (dt : ℚ) (disp : ℚ × ℚ) (s : PlayerState) : Bool :=
  landsOf regs dt (horizontalStep regs disp s)

/-- This frame ends at or below the fallback plane, so the final clamp fires. -/
def clampedToFallback (regs : List Box3) (dt : ℚ) (disp : ℚ × ℚ) (s : PlayerState) : Bool :=
  let s2 := verticalStep regs dt (horizontalStep regs disp s)
  decide (s2.pos.y ≤ currentGroundOf s2)

/-- The jump gate of the Space handler: can-jump, not crouching, head clear. -/
def jumpGate (regs : List Box3) (s : PlayerState) : Prop :=
  s.canJump = true ∧ s.isCrouching = false ∧ checkHeadCollision regs s.pos = none

inductive CamMode where
  | orbit
  | fps
deriving DecidableEq

/-- The slice of state mutated by the camera-mode switchers. -/
structure ControlsState where
  mode : CamMode
  orbitEnabled : Bool
  fpsEnabled : Bool
  camPos : Vec3
deriving DecidableEq

/-- `camera.position.set(150, -19, 0)` in `activateFPSControls`. -/
def fpsSpawn : Vec3 := ⟨150, -19, 0⟩

/-- `activateOrbitControls()`: flags and active mode only. -/
def activateOrbitControls (c : ControlsState) : ControlsState :=
  { c with fpsEnabled := false, orbitEnabled := true, mode := CamMode.orbit }

/-- `activateFPSControls()`: flags, active mode, and an unconditional camera
teleport to the fixed spawn position. -/
def activateFPSControls (c : ControlsState) : ControlsState :=
  { c with orbitEnabled := false, fpsEnabled := true, mode := CamMode.fps,
           camPos := fpsSpawn }

/-! Concrete data used by witnesses and counterexamples. -/

/-- A collider sitting on the diagonal between `c2cur` and `c2des`: it blocks
the full diagonal move but neither axis-only sub-move. -/
def c2box : Box3 := ⟨⟨9/5, 0, 9/5⟩, ⟨11/5, 1, 11/5⟩⟩

def c2cur : Vec3 := ⟨0, 0, 0⟩

def c2des : Vec3 := ⟨2, 0, 2⟩

/-- A state resting at the fallback plane with the jump gate open. -/
def gateState : PlayerState :=
  { pos := ⟨0, groundHeight, 0⟩
    verticalVelocity := 0
    canJump := true
    bunnyHopMultiplier := 1
    isCrouching := false
    isRunning := false
    baseSpeed := initialBaseSpeed
    normalSpeed := initialBaseSpeed
    move := ⟨false, false, false, false⟩ }

/-- Same state with can-jump already consumed. -/
def noJumpState : PlayerState :=
  { gateState with canJump := false }

/-- Same state with the run flag held. -/
def runState : PlayerState :=
  { gateState with isRunning := true }

/-- A state dropped at a height below the fallback plane. -/
def deepState : PlayerState :=
  { gateState with pos := ⟨0, -30, 0⟩ }

/-- A state whose integrated vertical velocity this frame is exactly zero when
`dt = 1/10`. -/
def zeroVvState : PlayerState :=
  { gateState with verticalVelocity := 2 }

/-- A crouched state at the origin. -/
def crouchedState : PlayerState :=
  { pos := ⟨0, 0, 0⟩
    verticalVelocity := 0
    canJump := true
    bunnyHopMultiplier := 1
    isCrouching := true
    isRunning := false
    baseSpeed := crouchSpeed
    normalSpeed := initialBaseSpeed
    move := ⟨false, false, false, false⟩ }

/-- A collider exactly over the head box at `crouchedState`'s stand-up
position `(0, 0.7, 0)` (that head box spans y in [2.2, 2.5]). -/
def lowCeilingBox : Box3 := ⟨⟨-1, 11/5, -1⟩, ⟨1, 5/2, 1⟩⟩

/-- An fps-mode controls state whose camera has moved away from the spawn. -/
def movedFpsControls : ControlsState :=
  { mode := CamMode.fps, orbitEnabled := false, fpsEnabled := true, camPos := ⟨0, 0, 0⟩ }

/-- An orbit-mode controls state at the initial camera position. -/
def orbitControlsState : ControlsState :=
  { mode := CamMode.orbit, orbitEnabled := true, fpsEnabled := false, camPos := ⟨250, 20, 0⟩ }


/-- The C4 scenario's collider, added through the manual helper: it spans
x in [0, 10], y in [0, 5], z in [0, 10]. -/
def c4Box : Box3 := addCollisionBox 5 (5/2) 5 10 5 10

/-- A C4-scenario state at horizontal position `(5, z)`, height `y`, vertical
velocity `vv`, all other fields at the scenario's defaults. -/
def c4state (z y vv : ℚ) : PlayerState :=
  { pos := ⟨5, y, z⟩
    verticalVelocity := vv
    canJump := true
    bunnyHopMultiplier := 1
    isCrouching := false
    isRunning := false
    baseSpeed := 4
    normalSpeed := 4
    move := ⟨false, false, false, false⟩ }

/-- The C4 claim's start state `(5, 10, -5)`. -/
def c4startClaim : PlayerState := c4state (-5) 10 0

/-- The start state moved horizontally above the collider: `(5, 10, 5)`. -/
def c4startAmended : PlayerState := c4state 5 10 0

/-!
The camera-relative horizontal displacement (the `animate` lines computing
`direction`, `forward`, `right` and `desiredPos`) contains a normalisation
whose result is generally irrational — for a diagonal input the unit direction
has components √2/2 — so this part is modelled over an arbitrary commutative
ring and instantiated at ℚ adjoined with √2.
-/

/-- ℚ adjoined with √2: the element `a + b·√2` is `⟨a, b⟩`. -/
@[ext]
structure Qrt2 where
  ra : ℚ
  rb : ℚ
deriving DecidableEq

def Qrt2.add (x y : Qrt2) : Qrt2 := ⟨x.ra + y.ra, x.rb + y.rb⟩

def Qrt2.mul (x y : Qrt2) : Qrt2 :=
  ⟨x.ra * y.ra + 2 * (x.rb * y.rb), x.ra * y.rb + x.rb * y.ra⟩

def Qrt2.neg (x : Qrt2) : Qrt2 := ⟨-x.ra, -x.rb⟩

instance : Zero Qrt2 := ⟨⟨0, 0⟩⟩

instance : One Qrt2 := ⟨⟨1, 0⟩⟩

instance : Add Qrt2 := ⟨Qrt2.add⟩

instance : Neg Qrt2 := ⟨Qrt2.neg⟩

instance : Mul Qrt2 := ⟨Qrt2.mul⟩

instance : CommRing Qrt2 := by
  have ara : ∀ x y : Qrt2, (x + y).ra = x.ra + y.ra := fun x y => rfl
  have arb : ∀ x y : Qrt2, (x + y).rb = x.rb + y.rb := fun x y => rfl
  have mra : ∀ x y : Qrt2, (x * y).ra = x.ra * y.ra + 2 * (x.rb * y.rb) := fun x y => rfl
  have mrb : ∀ x y : Qrt2, (x * y).rb = x.ra * y.rb + x.rb * y.ra := fun x y => rfl
  have nra : ∀ x : Qrt2, (-x).ra = -x.ra := fun x => rfl
  have nrb : ∀ x : Qrt2, (-x).rb = -x.rb := fun x => rfl
  have zra : (0 : Qrt2).ra = 0 := rfl
  have zrb : (0 : Qrt2).rb = 0 := rfl
  have ora : (1 : Qrt2).ra = 1 := rfl
  have orb : (1 : Qrt2).rb = 0 := rfl
  refine
  { add := (· + ·)
    zero := (0 : Qrt2)
    neg := Neg.neg
    mul := (· * ·)
    one := (1 : Qrt2)
    nsmul := @nsmulRec Qrt2 ⟨⟨0, 0⟩⟩ ⟨Qrt2.add⟩
    zsmul := @zsmulRec Qrt2 ⟨⟨0, 0⟩⟩ ⟨Qrt2.add⟩ ⟨Qrt2.neg⟩ (@nsmulRec Qrt2 ⟨⟨0, 0⟩⟩ ⟨Qrt2.add⟩)
    npow := @npowRec Qrt2 ⟨⟨1, 0⟩⟩ ⟨Qrt2.mul⟩
    add_assoc := ?_
    zero_add := ?_
    add_zero := ?_
    add_comm := ?_
    neg_add_cancel := ?_
    left_distrib := ?_
    right_distrib := ?_
    zero_mul := ?_
    mul_zero := ?_
    mul_assoc := ?_
    one_mul := ?_
    mul_one := ?_
    mul_comm := ?_ } <;>
  intros <;>
  ext <;>
  simp [ara, arb, mra, mrb, nra, nrb, zra, zrb, ora, orb] <;>
  ring

/-- Horizontal world vector (x and z components) over the scalar ring. -/
structure Vec2 (α : Type) where
  x : α
  z : α

/-- `right.crossVectors(forward, up)` with `forward = (f.x, 0, f.z)` and
`up = (0, 1, 0)`: the horizontal right vector is `(-f.z, 0, f.x)`. -/
def rightOf {α : Type} [CommRing α] (f : Vec2 α) : Vec2 α := ⟨-f.z, f.x⟩

/-- The raw (un-normalised) input direction from the four flags:
`direction.x -= 1` on left, `+= 1` on right; `direction.z -= 1` on forward,
`+= 1` on backward. -/
def dirFromFlags {α : Type} [CommRing α] (m : MoveFlags) : Vec2 α :=
  ⟨(if m.left then -1 else 0) + (if m.right then 1 else 0),
   (if m.forward then -1 else 0) + (if m.backward then 1 else 0)⟩

/-- `desiredPos - currentPos` in `animate`: `forward * (-direction.z *
moveDistance) + right * (direction.x * moveDistance)`, with `d` the
already-normalised direction and `dist = currentSpeed * delta`. -/
def dispVec {α : Type} [CommRing α] (f d : Vec2 α) (dist : α) : Vec2 α :=
  ⟨f.x * (-d.z * dist) + (rightOf f).x * (d.x * dist),
   f.z * (-d.z * dist) + (rightOf f).z * (d.x * dist)⟩

/-- Squared Euclidean length of a horizontal vector. -/
def magSq {α : Type} [CommRing α] (v : Vec2 α) : α := v.x * v.x + v.z * v.z

/-- `d` is the result of `raw.normalize()`: a unit vector proportional to
`raw` (the scale `1 / length(raw)` does not exist in ℚ for diagonal inputs,
hence the characterisation instead of a computation). -/
def IsNormalizationOf {α : Type} [CommRing α] (raw d : Vec2 α) : Prop :=
  magSq d = 1 ∧ ∃ c : α, d.x = c * raw.x ∧ d.z = c * raw.z

/-- Holding forward and right together. -/
def forwardRightFlags : MoveFlags := ⟨true, false, false, true⟩

/-- Holding forward alone. -/
def forwardFlags : MoveFlags := ⟨true, false, false, false⟩

/-- A unit forward vector in ℚ(√2). -/
def c9forward : Vec2 Qrt2 := ⟨1, 0⟩

/-- `normalize (1, -1)` = `(√2/2, -√2/2)` in ℚ(√2). -/
def c9diagDir : Vec2 Qrt2 := ⟨⟨0, 1/2⟩, ⟨0, -1/2⟩⟩

/-- `normalize (0, -1)` = `(0, -1)`. -/
def c9fwdDir : Vec2 Qrt2 := ⟨0, -1⟩

/-- A sample `moveDistance` (3/10, i.e. speed 3 over a 1/10 frame). -/
def c9dist : Qrt2 := ⟨3/10, 0⟩

/-! Theorems. -/

/-- Claim C2: sliding resolution tries the full desired position first, then
the X-only candidate, then the Z-only candidate, returning the first unblocked
one and otherwise the current position; in particular when the diagonal is
blocked but both axis-only sub-moves are free it always returns the X-only
candidate. -/
theorem C2_slide_tie_break :
    ∀ (regs : List Box3) (cur des : Vec3),
      (checkHorizontalCollision regs des = false →
        getValidMovement regs cur des = des) ∧
      (checkHorizontalCollision regs des = true →
        checkHorizontalCollision regs ⟨des.x, cur.y, cur.z⟩ = false →
        getValidMovement regs cur des = ⟨des.x, cur.y, cur.z⟩) ∧
      (checkHorizontalCollision regs des = true →
        checkHorizontalCollision regs ⟨des.x, cur.y, cur.z⟩ = true →
        checkHorizontalCollision regs ⟨cur.x, cur.y, des.z⟩ = false →
        getValidMovement regs cur des = ⟨cur.x, cur.y, des.z⟩) ∧
      (checkHorizontalCollision regs des = true →
        checkHorizontalCollision regs ⟨des.x, cur.y, cur.z⟩ = true →
        checkHorizontalCollision regs ⟨cur.x, cur.y, des.z⟩ = true →
        getValidMovement regs cur des = cur) := by
  intro regs cur des
  refine ⟨fun h1 => ?_, fun h1 h2 => ?_, fun h1 h2 h3 => ?_, fun h1 h2 h3 => ?_⟩
  · simp [getValidMovement, h1]
  · simp [getValidMovement, h1, h2]
  · simp [getValidMovement, h1, h2, h3]
  · simp [getValidMovement, h1, h2, h3]

theorem C2_slide_tie_break_witness :
    checkHorizontalCollision [c2box] c2des = true ∧
    checkHorizontalCollision [c2box] ⟨c2des.x, c2cur.y, c2cur.z⟩ = false ∧
    getValidMovement [c2box] c2cur c2des = ⟨c2des.x, c2cur.y, c2cur.z⟩ := by
  refine ⟨by norm_num [checkHorizontalCollision, boxFromCenterSize, Box3.intersects,
    c2box, c2cur, c2des, cameraBoxSize], by norm_num [checkHorizontalCollision,
    boxFromCenterSize, Box3.intersects, c2box, c2cur, c2des, cameraBoxSize], ?_⟩
  exact (C2_slide_tie_break [c2box] c2cur c2des).2.1
    (by norm_num [checkHorizontalCollision, boxFromCenterSize, Box3.intersects,
      c2box, c2cur, c2des, cameraBoxSize])
    (by norm_num [checkHorizontalCollision, boxFromCenterSize, Box3.intersects,
      c2box, c2cur, c2des, cameraBoxSize])

/-- Claim C5: when the head check at the current position hits a collider, or
can-jump is false, or the crouch flag is set, the Space handler changes
nothing at all; when the gate passes it sets the vertical velocity to the jump
strength and clears can-jump. -/
theorem C5_jump_refusal_atomicity :
    ∀ (regs : List Box3) (s : PlayerState),
      (((checkHeadCollision regs s.pos).isSome ∨ s.canJump = false ∨
          s.isCrouching = true) →
        pressSpace regs s = s) ∧
      (jumpGate regs s →
        (pressSpace regs s).verticalVelocity = jumpStrength ∧
        (pressSpace regs s).canJump = false) := by
  intro regs s
  constructor
  · intro h
    rcases h with h | h | h
    · unfold pressSpace
      split
      · rcases hh : checkHeadCollision regs s.pos with _ | b
        · rw [hh] at h; simp at h
        · rfl
      · rfl
    · simp [pressSpace, h]
    · simp [pressSpace, h]
  · rintro ⟨h1, h2, h3⟩
    unfold pressSpace
    rw [h1, h2, h3]
    simp

theorem C5_jump_refusal_atomicity_witness :
    pressSpace [] noJumpState = noJumpState ∧
    (pressSpace [] gateState).verticalVelocity = jumpStrength ∧
    (pressSpace [] gateState).canJump = false := by
  refine ⟨(C5_jump_refusal_atomicity [] noJumpState).1 (Or.inr (Or.inl rfl)), ?_⟩
  exact (C5_jump_refusal_atomicity [] gateState).2 ⟨rfl, rfl, rfl⟩

/-- Claim C6: the vertical resolution takes the ascending arm exactly when the
integrated vertical velocity is strictly positive; at velocity exactly zero it
takes the descending arm (ground snap, can-jump and multiplier updates), never
the ascending one. -/
theorem C6_zero_velocity_branch :
    ∀ (regs : List Box3) (dt : ℚ) (s : PlayerState),
      (s.verticalVelocity + gravity * dt > 0 →
        verticalStep regs dt s =
          upBranch regs
            ⟨s.pos.x, s.pos.y + (s.verticalVelocity + gravity * dt) * dt, s.pos.z⟩
            (s.pos.y + (s.verticalVelocity + gravity * dt) * dt)
            (s.verticalVelocity + gravity * dt) s) ∧
      (s.verticalVelocity + gravity * dt ≤ 0 →
        verticalStep regs dt s =
          downBranch regs
            ⟨s.pos.x, s.pos.y + (s.verticalVelocity + gravity * dt) * dt, s.pos.z⟩
            (s.pos.y + (s.verticalVelocity + gravity * dt) * dt)
            (s.verticalVelocity + gravity * dt) s) ∧
      (s.verticalVelocity + gravity * dt = 0 →
        verticalStep regs dt s =
          downBranch regs
            ⟨s.pos.x, s.pos.y + (s.verticalVelocity + gravity * dt) * dt, s.pos.z⟩
            (s.pos.y + (s.verticalVelocity + gravity * dt) * dt)
            (s.verticalVelocity + gravity * dt) s) := by
  intro regs dt s
  refine ⟨fun h => ?_, fun h => ?_, fun h => ?_⟩
  · simp only [verticalStep]
    rw [if_pos h]
  · simp only [verticalStep]
    rw [if_neg (by linarith : ¬s.verticalVelocity + gravity * dt > 0)]
  · simp only [verticalStep]
    rw [if_neg (by linarith : ¬s.verticalVelocity + gravity * dt > 0)]

theorem C6_zero_velocity_branch_witness :
    verticalStep [] (1/10) zeroVvState =
      downBranch []
        ⟨zeroVvState.pos.x,
          zeroVvState.pos.y +
            (zeroVvState.verticalVelocity + gravity * (1/10)) * (1/10),
          zeroVvState.pos.z⟩
        (zeroVvState.pos.y +
          (zeroVvState.verticalVelocity + gravity * (1/10)) * (1/10))
        (zeroVvState.verticalVelocity + gravity * (1/10)) zeroVvState := by
  exact (C6_zero_velocity_branch [] (1/10) zeroVvState).2.2
    (by norm_num [zeroVvState, gateState, gravity])

/-- Claim C10: the resolver's result is either exactly the current position or
a position at which the full player box intersects no collider; in particular
a player at an unblocked position is never moved to a blocked one. -/
theorem C10_resolver_postcondition :
    ∀ (regs : List Box3) (cur des : Vec3),
      (getValidMovement regs cur des = cur ∨
        checkHorizontalCollision regs (getValidMovement regs cur des) = false) ∧
      (checkHorizontalCollision regs cur = false →
        checkHorizontalCollision regs (getValidMovement regs cur des) = false) := by
  intro regs cur des
  have main : getValidMovement regs cur des = cur ∨
      checkHorizontalCollision regs (getValidMovement regs cur des) = false := by
    rcases h1 : checkHorizontalCollision regs des with _ | _
    · right; simp [getValidMovement, h1]
    · rcases h2 : checkHorizontalCollision regs ⟨des.x, cur.y, cur.z⟩ with _ | _
      · right; simp [getValidMovement, h1, h2]
      · rcases h3 : checkHorizontalCollision regs ⟨cur.x, cur.y, des.z⟩ with _ | _
        · right; simp [getValidMovement, h1, h2, h3]
        · left; simp [getValidMovement, h1, h2, h3]
  refine ⟨main, fun hcur => ?_⟩
  rcases main with h | h
  · rw [h]; exact hcur
  · exact h

theorem C10_resolver_postcondition_witness :
    checkHorizontalCollision [c2box] c2cur = false ∧
    checkHorizontalCollision [c2box] (getValidMovement [c2box] c2cur c2des) = false := by
  have hcur : checkHorizontalCollision [c2box] c2cur = false := by
    norm_num [checkHorizontalCollision, boxFromCenterSize, Box3.intersects,
      c2box, c2cur, cameraBoxSize]
  exact ⟨hcur, (C10_resolver_postcondition [c2box] c2cur c2des).2 hcur⟩

/-- Claim C7 (counterexample): crouch is not toggled by a single dedicated key.
Pressing the crouch key (`KeyC`) while already crouching leaves the state
unchanged — the handler only ever enters crouch; leaving crouch is a separate
handler on the Control keyup. -/
theorem C7_counterexample :
    crouchedState.isCrouching = true ∧
    (pressKeyC crouchedState).isCrouching = true ∧
    pressKeyC crouchedState = crouchedState := by
  refine ⟨rfl, ?_, ?_⟩ <;> simp [pressKeyC, crouchedState]

/-- Claim C7 (amended): crouch is entered on the dedicated `KeyC` keydown
(only when not already crouching) and exited on the Control keyup.  Entering
lowers the camera by the crouch offset and swaps the base speed to the crouch
speed while saving the prior one; exiting is gated by the head-clearance check
at the stand-up position, and a blocked stand-up is refused with the crouch
flag, camera height, and speeds all retained. -/
theorem C7_crouch_transitions :
    ∀ (regs : List Box3) (s : PlayerState),
      (s.isCrouching = false →
        pressKeyC s =
          { s with isCrouching := true
                   pos := { s.pos with y := s.pos.y + crouchOffset }
                   normalSpeed := s.baseSpeed
                   baseSpeed := crouchSpeed }) ∧
      (s.isCrouching = true → pressKeyC s = s) ∧
      (s.isCrouching = true →
        checkHeadCollision regs ⟨s.pos.x, s.pos.y - crouchOffset, s.pos.z⟩ = none →
        releaseControl regs s =
          { s with isCrouching := false
                   pos := { s.pos with y := s.pos.y - crouchOffset }
                   baseSpeed := s.normalSpeed }) ∧
      (s.isCrouching = true →
        (checkHeadCollision regs ⟨s.pos.x, s.pos.y - crouchOffset, s.pos.z⟩).isSome = true →
        releaseControl regs s = s) ∧
      (s.isCrouching = false → releaseControl regs s = s) := by
  intro regs s
  refine ⟨fun h => ?_, fun h => ?_, fun h hc => ?_, fun h hc => ?_, fun h => ?_⟩
  · simp [pressKeyC, h]
  · simp [pressKeyC, h]
  · simp [releaseControl, h, hc]
  · unfold releaseControl
    rw [h]
    rcases hh : checkHeadCollision regs ⟨s.pos.x, s.pos.y - crouchOffset, s.pos.z⟩ with _ | b
    · rw [hh] at hc; simp at hc
    · simp [hh]
  · simp [releaseControl, h]

theorem C7_crouch_transitions_witness :
    crouchedState.isCrouching = true ∧
    (checkHeadCollision [lowCeilingBox]
      ⟨crouchedState.pos.x, crouchedState.pos.y - crouchOffset, crouchedState.pos.z⟩).isSome
      = true ∧
    releaseControl [lowCeilingBox] crouchedState = crouchedState := by
  have hblocked : (checkHeadCollision [lowCeilingBox]
      ⟨crouchedState.pos.x, crouchedState.pos.y - crouchOffset, crouchedState.pos.z⟩).isSome
      = true := by
    norm_num [checkHeadCollision, boxFromCenterSize, Box3.intersects, List.find?,
      crouchedState, lowCeilingBox, cameraBoxSize, headHeight, crouchOffset]
  exact ⟨rfl, hblocked,
    (C7_crouch_transitions [lowCeilingBox] crouchedState).2.2.2.1 rfl hblocked⟩

/-- Claim C8 (counterexample): re-activating the already-active first-person
mode is not position-preserving — `activateFPSControls` unconditionally
teleports the camera to the fixed spawn, so a camera that has moved away is
relocated. -/
theorem C8_counterexample :
    movedFpsControls.mode = CamMode.fps ∧
    (activateFPSControls movedFpsControls).camPos ≠ movedFpsControls.camPos := by
  refine ⟨rfl, ?_⟩
  norm_num [activateFPSControls, movedFpsControls, fpsSpawn, Vec3.mk.injEq]

/-- Claim C8 (amended): re-activating orbit mode while it is active changes
nothing except reasserting the enabled flags and in particular leaves the
camera position unchanged; activating first-person mode always sets the camera
to the fixed spawn, so it is idempotent as an operation (a second activation
changes nothing) but does not preserve a camera position that has moved away
from the spawn. -/
theorem C8_mode_switch_idempotence :
    ∀ c : ControlsState,
      (c.mode = CamMode.orbit →
        activateOrbitControls c = { c with orbitEnabled := true, fpsEnabled := false } ∧
        (activateOrbitControls c).camPos = c.camPos) ∧
      activateFPSControls (activateFPSControls c) = activateFPSControls c ∧
      (activateFPSControls c).camPos = fpsSpawn := by
  intro c
  refine ⟨fun h => ⟨?_, rfl⟩, rfl, rfl⟩
  cases c
  cases h
  rfl

theorem C8_mode_switch_idempotence_witness :
    orbitControlsState.mode = CamMode.orbit ∧
    activateOrbitControls orbitControlsState =
      { orbitControlsState with orbitEnabled := true, fpsEnabled := false } ∧
    (activateOrbitControls orbitControlsState).camPos = orbitControlsState.camPos :=
  ⟨rfl, (C8_mode_switch_idempotence orbitControlsState).1 rfl⟩

theorem verticalStep_isCrouching (regs : List Box3) (dt : ℚ) (s : PlayerState) :
    (verticalStep regs dt s).isCrouching = s.isCrouching := by
  simp only [verticalStep, upBranch, downBranch]
  split <;> split <;> rfl

theorem verticalStep_move (regs : List Box3) (dt : ℚ) (s : PlayerState) :
    (verticalStep regs dt s).move = s.move := by
  simp only [verticalStep, upBranch, downBranch]
  split <;> split <;> rfl

/-- The vertical phase changes the multiplier exactly when the descending
branch lands on a collider with no directional input held. -/
theorem verticalStep_m_eq (regs : List Box3) (dt : ℚ) (s : PlayerState) :
    (verticalStep regs dt s).bunnyHopMultiplier =
      if landsOf regs dt s && s.move.idle then 1 else s.bunnyHopMultiplier := by
  simp only [verticalStep, landsOf, upBranch, downBranch]
  split
  · next h => split <;> simp [h]
  · next h =>
    split
    · next b heq => simp [h, heq]
    · next heq => simp [h, heq]

/-- Complete characterisation of the multiplier across one frame. -/
theorem tick_m_char (regs : List Box3) (dt : ℚ) (disp : ℚ × ℚ) (s : PlayerState) :
    (tick regs dt disp s).bunnyHopMultiplier =
      if (landsOnCollider regs dt disp s || clampedToFallback regs dt disp s) &&
          s.move.idle then 1
      else s.bunnyHopMultiplier := by
  have hm2 := verticalStep_m_eq regs dt (horizontalStep regs disp s)
  have hmove2 := verticalStep_move regs dt (horizontalStep regs disp s)
  have hmove1 : (horizontalStep regs disp s).move = s.move := rfl
  have hm1 : (horizontalStep regs disp s).bunnyHopMultiplier = s.bunnyHopMultiplier := rfl
  rw [hmove1] at hmove2
  rw [hm1] at hm2
  rw [hmove1] at hm2
  unfold tick fallbackStep landsOnCollider clampedToFallback
  by_cases hcl : (verticalStep regs dt (horizontalStep regs disp s)).pos.y ≤
      currentGroundOf (verticalStep regs dt (horizontalStep regs disp s))
  · rw [if_pos hcl]
    by_cases hidle : s.move.idle = true
    · simp [hcl, hmove2, hidle]
    · simp only [Bool.not_eq_true] at hidle
      simp [hcl, hmove2, hidle, hm2]
  · rw [if_neg hcl]
    by_cases hidle : s.move.idle = true
    · simp [hcl, hidle, hm2]
    · simp only [Bool.not_eq_true] at hidle
      simp [hcl, hidle, hm2]

/-- Claim C3: the bunny-hop multiplier starts at 1, stays within
[1, maxBunnyHop] across the jump handler and the frame tick, grows only on a
successful jump while the run flag is held (multiplicatively, as
`min(multiplier * 1.1, maxBunnyHop)`), and is set back to 1 exactly by a frame
that grounds the player (collider landing or fallback clamp) with no
directional input held. -/
theorem C3_bunny_hop_invariant :
    ∀ (regs : List Box3) (s : PlayerState) (dt : ℚ) (disp : ℚ × ℚ),
      (1 ≤ initialBunnyHop ∧ initialBunnyHop ≤ maxBunnyHop) ∧
      (1 ≤ s.bunnyHopMultiplier → s.bunnyHopMultiplier ≤ maxBunnyHop →
        (1 ≤ (pressSpace regs s).bunnyHopMultiplier ∧
          (pressSpace regs s).bunnyHopMultiplier ≤ maxBunnyHop) ∧
        (1 ≤ (tick regs dt disp s).bunnyHopMultiplier ∧
          (tick regs dt disp s).bunnyHopMultiplier ≤ maxBunnyHop) ∧
        (tick regs dt disp s).bunnyHopMultiplier ≤ s.bunnyHopMultiplier) ∧
      (jumpGate regs s → s.isRunning = true →
        (pressSpace regs s).bunnyHopMultiplier =
          min (s.bunnyHopMultiplier * (11/10)) maxBunnyHop) ∧
      (¬(jumpGate regs s ∧ s.isRunning = true) →
        (pressSpace regs s).bunnyHopMultiplier = s.bunnyHopMultiplier) ∧
      ((tick regs dt disp s).bunnyHopMultiplier = s.bunnyHopMultiplier ∨
        ((tick regs dt disp s).bunnyHopMultiplier = 1 ∧ s.move.idle = true ∧
          (landsOnCollider regs dt disp s = true ∨
            clampedToFallback regs dt disp s = true))) ∧
      (s.move.idle = true →
        landsOnCollider regs dt disp s = true ∨ clampedToFallback regs dt disp s = true →
        (tick regs dt disp s).bunnyHopMultiplier = 1) := by
  intro regs s dt disp
  have hchar := tick_m_char regs dt disp s
  have hspace : (pressSpace regs s).bunnyHopMultiplier = s.bunnyHopMultiplier ∨
      ((pressSpace regs s).bunnyHopMultiplier =
          min (s.bunnyHopMultiplier * (11/10)) maxBunnyHop ∧
        jumpGate regs s ∧ s.isRunning = true) := by
    by_cases h1 : s.canJump = true
    · by_cases h2 : s.isCrouching = false
      · rcases hh : checkHeadCollision regs s.pos with _ | b
        · by_cases h3 : s.isRunning = true
          · right
            refine ⟨?_, ⟨h1, h2, hh⟩, h3⟩
            simp [pressSpace, h1, h2, hh, h3]
          · left
            simp only [Bool.not_eq_true] at h3
            simp [pressSpace, h1, h2, hh, h3]
        · left; simp [pressSpace, h1, h2, hh]
      · left
        simp only [Bool.not_eq_false] at h2
        simp [pressSpace, h2]
    · left
      simp only [Bool.not_eq_true] at h1
      simp [pressSpace, h1]
  refine ⟨⟨by norm_num [initialBunnyHop], by norm_num [initialBunnyHop, maxBunnyHop]⟩,
    fun hlo hhi => ⟨?_, ?_, ?_⟩, fun hg hr => ?_, fun hng => ?_, ?_, fun hidle hg => ?_⟩
  · rcases hspace with h | ⟨h, _⟩
    · rw [h]; exact ⟨hlo, hhi⟩
    · rw [h]
      refine ⟨le_min (by nlinarith) (by norm_num [maxBunnyHop]), min_le_right _ _⟩
  · rw [hchar]
    split
    · exact ⟨le_refl 1, by norm_num [maxBunnyHop]⟩
    · exact ⟨hlo, hhi⟩
  · rw [hchar]
    split
    · exact hlo
    · exact le_refl _
  · rcases hg with ⟨g1, g2, g3⟩
    simp [pressSpace, g1, g2, g3, hr]
  · rcases hspace with h | ⟨_, hgate, hrun⟩
    · exact h
    · exact absurd ⟨hgate, hrun⟩ hng
  · rw [hchar]
    split
    · next hcond =>
      right
      simp only [Bool.and_eq_true, Bool.or_eq_true] at hcond
      exact ⟨rfl, hcond.2, hcond.1⟩
    · exact Or.inl rfl
  · rw [hchar]
    have : (landsOnCollider regs dt disp s || clampedToFallback regs dt disp s) = true := by
      rcases hg with h | h <;> simp [h]
    simp [this, hidle]

theorem C3_bunny_hop_invariant_witness :
    (pressSpace [] runState).bunnyHopMultiplier =
      min (runState.bunnyHopMultiplier * (11/10)) maxBunnyHop ∧
    1 ≤ (tick [] (1/10) (0, 0) runState).bunnyHopMultiplier := by
  have h := C3_bunny_hop_invariant [] runState (1/10) (0, 0)
  refine ⟨h.2.2.1 ⟨rfl, rfl, rfl⟩ rfl, ?_⟩
  exact ((h.2.1 (by norm_num [runState, gateState])
    (by norm_num [runState, gateState, maxBunnyHop])).2.1).1

theorem horizontalStep_empty_zero (s : PlayerState) :
    horizontalStep [] (0, 0) s = s := by
  simp [horizontalStep, getValidMovement, checkHorizontalCollision]

/-- With no colliders both vertical arms commit the integrated motion. -/
theorem verticalStep_empty (dt : ℚ) (s : PlayerState) :
    verticalStep [] dt s =
      { s with verticalVelocity := s.verticalVelocity + gravity * dt
               pos := { s.pos with
                 y := s.pos.y + (s.verticalVelocity + gravity * dt) * dt } } := by
  simp only [verticalStep, upBranch, downBranch, checkVerticalCollision, List.find?_nil]
  split <;> rfl

/-- Closed form of one idle frame over an empty registry: either the fallback
clamp fires or the state coasts down by the integrated velocity. -/
theorem tick_empty_idle (dt : ℚ) (s : PlayerState) (h : s.move.idle = true) :
    tick [] dt (0, 0) s =
      if s.pos.y + (s.verticalVelocity + gravity * dt) * dt ≤ currentGroundOf s then
        { s with pos := ⟨s.pos.x, currentGroundOf s, s.pos.z⟩
                 verticalVelocity := 0
                 canJump := true
                 bunnyHopMultiplier := 1 }
      else
        { s with pos := ⟨s.pos.x, s.pos.y + (s.verticalVelocity + gravity * dt) * dt, s.pos.z⟩
                 verticalVelocity := s.verticalVelocity + gravity * dt } := by
  unfold tick
  rw [horizontalStep_empty_zero, verticalStep_empty]
  simp only [fallbackStep, currentGroundOf, h]
  split <;> split <;> rfl

theorem tick_preserves (regs : List Box3) (dt : ℚ) (disp : ℚ × ℚ) (s : PlayerState) :
    (tick regs dt disp s).move = s.move ∧
    (tick regs dt disp s).isCrouching = s.isCrouching := by
  have hmv := verticalStep_move regs dt (horizontalStep regs disp s)
  have hcr := verticalStep_isCrouching regs dt (horizontalStep regs disp s)
  have h1m : (horizontalStep regs disp s).move = s.move := rfl
  have h1c : (horizontalStep regs disp s).isCrouching = s.isCrouching := rfl
  rw [h1m] at hmv
  rw [h1c] at hcr
  unfold tick fallbackStep
  split <;> exact ⟨by simpa using hmv, by simpa using hcr⟩

/-- Claim C1: whenever the position produced by the vertical resolution ends at
or below the ground-height reference (lowered by the crouch offset while
crouching), the frame clamps the height to exactly that reference, zeroes the
vertical velocity, sets can-jump, and resets the multiplier to 1 when no
directional input is held; consequently over an empty registry an idle player
dropped from any height comes to rest exactly on the reference after
sufficiently many frames. -/
theorem C1_fallback_floor :
    (∀ (regs : List Box3) (dt : ℚ) (disp : ℚ × ℚ) (s : PlayerState),
        (verticalStep regs dt (horizontalStep regs disp s)).pos.y ≤
          currentGroundOf (verticalStep regs dt (horizontalStep regs disp s)) →
        (tick regs dt disp s).pos.y = currentGroundOf s ∧
        (tick regs dt disp s).verticalVelocity = 0 ∧
        (tick regs dt disp s).canJump = true ∧
        (s.move.idle = true → (tick regs dt disp s).bunnyHopMultiplier = 1)) ∧
    (∀ (dt : ℚ) (s : PlayerState), 0 < dt → s.verticalVelocity = 0 →
        s.move.idle = true →
        ∃ n : ℕ, ((tick [] dt (0, 0))^[n] s).pos.y = currentGroundOf s ∧
          ((tick [] dt (0, 0))^[n] s).verticalVelocity = 0 ∧
          ((tick [] dt (0, 0))^[n] s).canJump = true) := by
  constructor
  · intro regs dt disp s hcl
    have hg : currentGroundOf (verticalStep regs dt (horizontalStep regs disp s)) =
        currentGroundOf s := by
      unfold currentGroundOf
      rw [verticalStep_isCrouching]
      rfl
    have hmove : (verticalStep regs dt (horizontalStep regs disp s)).move = s.move := by
      rw [verticalStep_move]
      rfl
    unfold tick fallbackStep
    rw [if_pos hcl]
    refine ⟨?_, rfl, rfl, fun hidle => ?_⟩
    · simpa using hg
    · simp [hmove, hidle]
  · intro dt s hdt hvv0 hidle
    have hdt2 : 0 < dt^2 := by positivity
    set f := tick [] dt (0, 0) with hfdef
    have hpres : ∀ n : ℕ, ((f)^[n] s).move = s.move ∧
        ((f)^[n] s).isCrouching = s.isCrouching := by
      intro n
      induction n with
      | zero => exact ⟨rfl, rfl⟩
      | succ n ih =>
        rw [Function.iterate_succ_apply']
        have h := tick_preserves [] dt (0, 0) ((f)^[n] s)
        exact ⟨h.1.trans ih.1, h.2.trans ih.2⟩
    have hgr : ∀ n : ℕ, currentGroundOf ((f)^[n] s) = currentGroundOf s := by
      intro n
      unfold currentGroundOf
      rw [(hpres n).2]
    have hstep : ∀ u : PlayerState, u.move = s.move →
        f u =
          if u.pos.y + (u.verticalVelocity + gravity * dt) * dt ≤ currentGroundOf u then
            { u with pos := ⟨u.pos.x, currentGroundOf u, u.pos.z⟩
                     verticalVelocity := 0
                     canJump := true
                     bunnyHopMultiplier := 1 }
          else
            { u with pos := ⟨u.pos.x, u.pos.y + (u.verticalVelocity + gravity * dt) * dt,
                       u.pos.z⟩
                     verticalVelocity := u.verticalVelocity + gravity * dt } := by
      intro u hu
      exact tick_empty_idle dt u (by rw [hu]; exact hidle)
    have key : ∀ n : ℕ,
        (((f)^[n] s).pos.y = currentGroundOf s ∧ ((f)^[n] s).verticalVelocity = 0 ∧
          ((f)^[n] s).canJump = true) ∨
        (((f)^[n] s).verticalVelocity = -20 * dt * n ∧
          ((f)^[n] s).pos.y ≤ s.pos.y - 10 * dt^2 * (n * (n + 1))) := by
      intro n
      induction n with
      | zero =>
        right
        simp [hvv0]
      | succ n ih =>
        rw [Function.iterate_succ_apply']
        have hfu := hstep ((f)^[n] s) (hpres n).1
        have hgru : currentGroundOf ((f)^[n] s) = currentGroundOf s := hgr n
        rcases ih with ⟨hy, hv, hj⟩ | ⟨hv, hy⟩
        · left
          have hcond : ((f)^[n] s).pos.y +
              (((f)^[n] s).verticalVelocity + gravity * dt) * dt ≤
              currentGroundOf ((f)^[n] s) := by
            rw [hy, hv, hgru]
            unfold gravity
            nlinarith
          rw [hfu, if_pos hcond]
          refine ⟨?_, rfl, rfl⟩
          simpa using hgru
        · by_cases hcond : ((f)^[n] s).pos.y +
              (((f)^[n] s).verticalVelocity + gravity * dt) * dt ≤
              currentGroundOf ((f)^[n] s)
          · left
            rw [hfu, if_pos hcond]
            refine ⟨?_, rfl, rfl⟩
            simpa using hgru
          · right
            rw [hfu, if_neg hcond]
            refine ⟨?_, ?_⟩
            · dsimp only
              rw [hv]
              unfold gravity
              push_cast
              ring
            · dsimp only
              rw [hv]
              unfold gravity
              push_cast
              nlinarith [hy, hdt2]
    obtain ⟨N, hN⟩ := exists_nat_gt ((s.pos.y - currentGroundOf s) / (10 * dt^2))
    refine ⟨N + 1, ?_⟩
    rw [Function.iterate_succ_apply']
    have hfu := hstep ((f)^[N] s) (hpres N).1
    have hgru : currentGroundOf ((f)^[N] s) = currentGroundOf s := hgr N
    have hyv : ((f)^[N] s).pos.y ≤ currentGroundOf s ∧
        ((f)^[N] s).verticalVelocity ≤ 0 := by
      rcases key N with ⟨hy, hv, hj⟩ | ⟨hv, hy⟩
      · exact ⟨le_of_eq hy, le_of_eq hv⟩
      · constructor
        · have hNQ : (0 : ℚ) ≤ (N : ℚ) := Nat.cast_nonneg N
          have h1 : s.pos.y - currentGroundOf s < 10 * dt^2 * N := by
            rw [div_lt_iff₀ (by positivity)] at hN
            linarith [hN]
          nlinarith [hy, hdt2, hNQ, mul_nonneg hdt2.le (sq_nonneg (N : ℚ))]
        · rw [hv]
          have hNQ : (0 : ℚ) ≤ (N : ℚ) := Nat.cast_nonneg N
          nlinarith
    have hcond : ((f)^[N] s).pos.y +
        (((f)^[N] s).verticalVelocity + gravity * dt) * dt ≤
        currentGroundOf ((f)^[N] s) := by
      rw [hgru]
      have hvd : (((f)^[N] s).verticalVelocity + gravity * dt) * dt ≤ 0 := by
        unfold gravity
        nlinarith [hyv.2]
      linarith [hyv.1]
    rw [hfu, if_pos hcond]
    refine ⟨?_, rfl, rfl⟩
    simpa using hgru

theorem C1_fallback_floor_witness :
    (verticalStep [] 1 (horizontalStep [] (0, 0) deepState)).pos.y ≤
      currentGroundOf (verticalStep [] 1 (horizontalStep [] (0, 0) deepState)) ∧
    (tick [] 1 (0, 0) deepState).pos.y = currentGroundOf deepState ∧
    (0 : ℚ) < 1 ∧
    (∃ n : ℕ, ((tick [] 1 (0, 0))^[n] deepState).pos.y = currentGroundOf deepState ∧
      ((tick [] 1 (0, 0))^[n] deepState).verticalVelocity = 0 ∧
      ((tick [] 1 (0, 0))^[n] deepState).canJump = true) := by
  have hcl : (verticalStep [] 1 (horizontalStep [] (0, 0) deepState)).pos.y ≤
      currentGroundOf (verticalStep [] 1 (horizontalStep [] (0, 0) deepState)) := by
    rw [horizontalStep_empty_zero, verticalStep_empty]
    norm_num [deepState, gateState, currentGroundOf, gravity, groundHeight]
  refine ⟨hcl, (C1_fallback_floor.1 [] 1 (0, 0) deepState hcl).1, by norm_num, ?_⟩
  exact C1_fallback_floor.2 1 deepState (by norm_num) rfl rfl

/-- Claim C4 (counterexample): from the claim's start `(5, 10, -5)` the player
box (z in [-5.4, -4.6]) never horizontally overlaps the collider (z in
[0, 10]), so the fall misses the box entirely: with `dt = 1/10` the trajectory
reaches the fallback plane after 17 frames and stays there — the resting
height is `groundHeight = -19`, not the box top 5. -/
theorem C4_counterexample :
    ((tick [c4Box] (1/10) (0, 0))^[17] c4startClaim).pos.y = groundHeight ∧
    ((tick [c4Box] (1/10) (0, 0))^[17] c4startClaim).verticalVelocity = 0 ∧
    ((tick [c4Box] (1/10) (0, 0))^[17] c4startClaim).canJump = true ∧
    tick [c4Box] (1/10) (0, 0) ((tick [c4Box] (1/10) (0, 0))^[17] c4startClaim) =
      (tick [c4Box] (1/10) (0, 0))^[17] c4startClaim ∧
    groundHeight ≠ 5 := by
  have i1 : (tick [c4Box] (1/10) (0, 0))^[1] c4startClaim =
      c4state (-5) (49/5) (-2) := by
    rw [show (1 : ℕ) = 0 + 1 from rfl, Function.iterate_succ_apply',
      Function.iterate_zero_apply]
    norm_num [tick, fallbackStep, verticalStep, upBranch, downBranch, horizontalStep,
      getValidMovement, checkHorizontalCollision, checkVerticalCollision, boxFromCenterSize,
      Box3.intersects, List.any, List.find?, c4Box, c4state, c4startClaim, c4startAmended, addCollisionBox, cameraBoxSize,
      gravity, groundHeight, currentGroundOf, crouchOffset, MoveFlags.idle]
  have i2 : (tick [c4Box] (1/10) (0, 0))^[2] c4startClaim =
      c4state (-5) (47/5) (-4) := by
    rw [show (2 : ℕ) = 1 + 1 from rfl, Function.iterate_succ_apply', i1]
    norm_num [tick, fallbackStep, verticalStep, upBranch, downBranch, horizontalStep,
      getValidMovement, checkHorizontalCollision, checkVerticalCollision, boxFromCenterSize,
      Box3.intersects, List.any, List.find?, c4Box, c4state, c4startClaim, c4startAmended, addCollisionBox, cameraBoxSize,
      gravity, groundHeight, currentGroundOf, crouchOffset, MoveFlags.idle]
  have i3 : (tick [c4Box] (1/10) (0, 0))^[3] c4startClaim =
      c4state (-5) (44/5) (-6) := by
    rw [show (3 : ℕ) = 2 + 1 from rfl, Function.iterate_succ_apply', i2]
    norm_num [tick, fallbackStep, verticalStep, upBranch, downBranch, horizontalStep,
      getValidMovement, checkHorizontalCollision, checkVerticalCollision, boxFromCenterSize,
      Box3.intersects, List.any, List.find?, c4Box, c4state, c4startClaim, c4startAmended, addCollisionBox, cameraBoxSize,
      gravity, groundHeight, currentGroundOf, crouchOffset, MoveFlags.idle]
  have i4 : (tick [c4Box] (1/10) (0, 0))^[4] c4startClaim =
      c4state (-5) 8 (-8) := by
    rw [show (4 : ℕ) = 3 + 1 from rfl, Function.iterate_succ_apply', i3]
    norm_num [tick, fallbackStep, verticalStep, upBranch, downBranch, horizontalStep,
      getValidMovement, checkHorizontalCollision, checkVerticalCollision, boxFromCenterSize,
      Box3.intersects, List.any, List.find?, c4Box, c4state, c4startClaim, c4startAmended, addCollisionBox, cameraBoxSize,
      gravity, groundHeight, currentGroundOf, crouchOffset, MoveFlags.idle]
  have i5 : (tick [c4Box] (1/10) (0, 0))^[5] c4startClaim =
      c4state (-5) 7 (-10) := by
    rw [show (5 : ℕ) = 4 + 1 from rfl, Function.iterate_succ_apply', i4]
    norm_num [tick, fallbackStep, verticalStep, upBranch, downBranch, horizontalStep,
      getValidMovement, checkHorizontalCollision, checkVerticalCollision, boxFromCenterSize,
      Box3.intersects, List.any, List.find?, c4Box, c4state, c4startClaim, c4startAmended, addCollisionBox, cameraBoxSize,
      gravity, groundHeight, currentGroundOf, crouchOffset, MoveFlags.idle]
  have i6 : (tick [c4Box] (1/10) (0, 0))^[6] c4startClaim =
      c4state (-5) (29/5) (-12) := by
    rw [show (6 : ℕ) = 5 + 1 from rfl, Function.iterate_succ_apply', i5]
    norm_num [tick, fallbackStep, verticalStep, upBranch, downBranch, horizontalStep,
      getValidMovement, checkHorizontalCollision, checkVerticalCollision, boxFromCenterSize,
      Box3.intersects, List.any, List.find?, c4Box, c4state, c4startClaim, c4startAmended, addCollisionBox, cameraBoxSize,
      gravity, groundHeight, currentGroundOf, crouchOffset, MoveFlags.idle]
  have i7 : (tick [c4Box] (1/10) (0, 0))^[7] c4startClaim =
      c4state (-5) (22/5) (-14) := by
    rw [show (7 : ℕ) = 6 + 1 from rfl, Function.iterate_succ_apply', i6]
    norm_num [tick, fallbackStep, verticalStep, upBranch, downBranch, horizontalStep,
      getValidMovement, checkHorizontalCollision, checkVerticalCollision, boxFromCenterSize,
      Box3.intersects, List.any, List.find?, c4Box, c4state, c4startClaim, c4startAmended, addCollisionBox, cameraBoxSize,
      gravity, groundHeight, currentGroundOf, crouchOffset, MoveFlags.idle]
  have i8 : (tick [c4Box] (1/10) (0, 0))^[8] c4startClaim =
      c4state (-5) (14/5) (-16) := by
    rw [show (8 : ℕ) = 7 + 1 from rfl, Function.iterate_succ_apply', i7]
    norm_num [tick, fallbackStep, verticalStep, upBranch, downBranch, horizontalStep,
      getValidMovement, checkHorizontalCollision, checkVerticalCollision, boxFromCenterSize,
      Box3.intersects, List.any, List.find?, c4Box, c4state, c4startClaim, c4startAmended, addCollisionBox, cameraBoxSize,
      gravity, groundHeight, currentGroundOf, crouchOffset, MoveFlags.idle]
  have i9 : (tick [c4Box] (1/10) (0, 0))^[9] c4startClaim =
      c4state (-5) 1 (-18) := by
    rw [show (9 : ℕ) = 8 + 1 from rfl, Function.iterate_succ_apply', i8]
    norm_num [tick, fallbackStep, verticalStep, upBranch, downBranch, horizontalStep,
      getValidMovement, checkHorizontalCollision, checkVerticalCollision, boxFromCenterSize,
      Box3.intersects, List.any, List.find?, c4Box, c4state, c4startClaim, c4startAmended, addCollisionBox, cameraBoxSize,
      gravity, groundHeight, currentGroundOf, crouchOffset, MoveFlags.idle]
  have i10 : (tick [c4Box] (1/10) (0, 0))^[10] c4startClaim =
      c4state (-5) (-1) (-20) := by
    rw [show (10 : ℕ) = 9 + 1 from rfl, Function.iterate_succ_apply', i9]
    norm_num [tick, fallbackStep, verticalStep, upBranch, downBranch, horizontalStep,
      getValidMovement, checkHorizontalCollision, checkVerticalCollision, boxFromCenterSize,
      Box3.intersects, List.any, List.find?, c4Box, c4state, c4startClaim, c4startAmended, addCollisionBox, cameraBoxSize,
      gravity, groundHeight, currentGroundOf, crouchOffset, MoveFlags.idle]
  have i11 : (tick [c4Box] (1/10) (0, 0))^[11] c4startClaim =
      c4state (-5) (-16/5) (-22) := by
    rw [show (11 : ℕ) = 10 + 1 from rfl, Function.iterate_succ_apply', i10]
    norm_num [tick, fallbackStep, verticalStep, upBranch, downBranch, horizontalStep,
      getValidMovement, checkHorizontalCollision, checkVerticalCollision, boxFromCenterSize,
      Box3.intersects, List.any, List.find?, c4Box, c4state, c4startClaim, c4startAmended, addCollisionBox, cameraBoxSize,
      gravity, groundHeight, currentGroundOf, crouchOffset, MoveFlags.idle]
  have i12 : (tick [c4Box] (1/10) (0, 0))^[12] c4startClaim =
      c4state (-5) (-28/5) (-24) := by
    rw [show (12 : ℕ) = 11 + 1 from rfl, Function.iterate_succ_apply', i11]
    norm_num [tick, fallbackStep, verticalStep, upBranch, downBranch, horizontalStep,
      getValidMovement, checkHorizontalCollision, checkVerticalCollision, boxFromCenterSize,
      Box3.intersects, List.any, List.find?, c4Box, c4state, c4startClaim, c4startAmended, addCollisionBox, cameraBoxSize,
      gravity, groundHeight, currentGroundOf, crouchOffset, MoveFlags.idle]
  have i13 : (tick [c4Box] (1/10) (0, 0))^[13] c4startClaim =
      c4state (-5) (-41/5) (-26) := by
    rw [show (13 : ℕ) = 12 + 1 from rfl, Function.iterate_succ_apply', i12]
    norm_num [tick, fallbackStep, verticalStep, upBranch, downBranch, horizontalStep,
      getValidMovement, checkHorizontalCollision, checkVerticalCollision, boxFromCenterSize,
      Box3.intersects, List.any, List.find?, c4Box, c4state, c4startClaim, c4startAmended, addCollisionBox, cameraBoxSize,
      gravity, groundHeight, currentGroundOf, crouchOffset, MoveFlags.idle]
  have i14 : (tick [c4Box] (1/10) (0, 0))^[14] c4startClaim =
      c4state (-5) (-11) (-28) := by
    rw [show (14 : ℕ) = 13 + 1 from rfl, Function.iterate_succ_apply', i13]
    norm_num [tick, fallbackStep, verticalStep, upBranch, downBranch, horizontalStep,
      getValidMovement, checkHorizontalCollision, checkVerticalCollision, boxFromCenterSize,
      Box3.intersects, List.any, List.find?, c4Box, c4state, c4startClaim, c4startAmended, addCollisionBox, cameraBoxSize,
      gravity, groundHeight, currentGroundOf, crouchOffset, MoveFlags.idle]
  have i15 : (tick [c4Box] (1/10) (0, 0))^[15] c4startClaim =
      c4state (-5) (-14) (-30) := by
    rw [show (15 : ℕ) = 14 + 1 from rfl, Function.iterate_succ_apply', i14]
    norm_num [tick, fallbackStep, verticalStep, upBranch, downBranch, horizontalStep,
      getValidMovement, checkHorizontalCollision, checkVerticalCollision, boxFromCenterSize,
      Box3.intersects, List.any, List.find?, c4Box, c4state, c4startClaim, c4startAmended, addCollisionBox, cameraBoxSize,
      gravity, groundHeight, currentGroundOf, crouchOffset, MoveFlags.idle]
  have i16 : (tick [c4Box] (1/10) (0, 0))^[16] c4startClaim =
      c4state (-5) (-86/5) (-32) := by
    rw [show (16 : ℕ) = 15 + 1 from rfl, Function.iterate_succ_apply', i15]
    norm_num [tick, fallbackStep, verticalStep, upBranch, downBranch, horizontalStep,
      getValidMovement, checkHorizontalCollision, checkVerticalCollision, boxFromCenterSize,
      Box3.intersects, List.any, List.find?, c4Box, c4state, c4startClaim, c4startAmended, addCollisionBox, cameraBoxSize,
      gravity, groundHeight, currentGroundOf, crouchOffset, MoveFlags.idle]
  have i17 : (tick [c4Box] (1/10) (0, 0))^[17] c4startClaim =
      c4state (-5) (-19) 0 := by
    rw [show (17 : ℕ) = 16 + 1 from rfl, Function.iterate_succ_apply', i16]
    norm_num [tick, fallbackStep, verticalStep, upBranch, downBranch, horizontalStep,
      getValidMovement, checkHorizontalCollision, checkVerticalCollision, boxFromCenterSize,
      Box3.intersects, List.any, List.find?, c4Box, c4state, c4startClaim, c4startAmended, addCollisionBox, cameraBoxSize,
      gravity, groundHeight, currentGroundOf, crouchOffset, MoveFlags.idle]
  refine ⟨by rw [i17]; norm_num [c4state, groundHeight], by rw [i17]; rfl,
    by rw [i17]; rfl, ?_, by norm_num [groundHeight]⟩
  rw [i17]
  norm_num [tick, fallbackStep, verticalStep, upBranch, downBranch, horizontalStep,
      getValidMovement, checkHorizontalCollision, checkVerticalCollision, boxFromCenterSize,
      Box3.intersects, List.any, List.find?, c4Box, c4state, c4startClaim, c4startAmended, addCollisionBox, cameraBoxSize,
      gravity, groundHeight, currentGroundOf, crouchOffset, MoveFlags.idle]

/-- Claim C4 (amended): with the player started at `(5, 10, 5)` — horizontally
above the collider, which the claim's `(5, 10, -5)` is not — and `dt = 1/10`,
iterated frames land the player on the box top after 6 frames: height exactly
`c4Box.max.y = 5`, vertical velocity 0, can-jump true, and that state is a
fixed point of further frames. -/
theorem C4_landing_scenario :
    ((tick [c4Box] (1/10) (0, 0))^[6] c4startAmended).pos.y = c4Box.max.y ∧
    ((tick [c4Box] (1/10) (0, 0))^[6] c4startAmended).pos.y = 5 ∧
    ((tick [c4Box] (1/10) (0, 0))^[6] c4startAmended).verticalVelocity = 0 ∧
    ((tick [c4Box] (1/10) (0, 0))^[6] c4startAmended).canJump = true ∧
    tick [c4Box] (1/10) (0, 0) ((tick [c4Box] (1/10) (0, 0))^[6] c4startAmended) =
      (tick [c4Box] (1/10) (0, 0))^[6] c4startAmended := by
  have i1 : (tick [c4Box] (1/10) (0, 0))^[1] c4startAmended =
      c4state 5 (49/5) (-2) := by
    rw [show (1 : ℕ) = 0 + 1 from rfl, Function.iterate_succ_apply',
      Function.iterate_zero_apply]
    norm_num [tick, fallbackStep, verticalStep, upBranch, downBranch, horizontalStep,
      getValidMovement, checkHorizontalCollision, checkVerticalCollision, boxFromCenterSize,
      Box3.intersects, List.any, List.find?, c4Box, c4state, c4startClaim, c4startAmended, addCollisionBox, cameraBoxSize,
      gravity, groundHeight, currentGroundOf, crouchOffset, MoveFlags.idle]
  have i2 : (tick [c4Box] (1/10) (0, 0))^[2] c4startAmended =
      c4state 5 (47/5) (-4) := by
    rw [show (2 : ℕ) = 1 + 1 from rfl, Function.iterate_succ_apply', i1]
    norm_num [tick, fallbackStep, verticalStep, upBranch, downBranch, horizontalStep,
      getValidMovement, checkHorizontalCollision, checkVerticalCollision, boxFromCenterSize,
      Box3.intersects, List.any, List.find?, c4Box, c4state, c4startClaim, c4startAmended, addCollisionBox, cameraBoxSize,
      gravity, groundHeight, currentGroundOf, crouchOffset, MoveFlags.idle]
  have i3 : (tick [c4Box] (1/10) (0, 0))^[3] c4startAmended =
      c4state 5 (44/5) (-6) := by
    rw [show (3 : ℕ) = 2 + 1 from rfl, Function.iterate_succ_apply', i2]
    norm_num [tick, fallbackStep, verticalStep, upBranch, downBranch, horizontalStep,
      getValidMovement, checkHorizontalCollision, checkVerticalCollision, boxFromCenterSize,
      Box3.intersects, List.any, List.find?, c4Box, c4state, c4startClaim, c4startAmended, addCollisionBox, cameraBoxSize,
      gravity, groundHeight, currentGroundOf, crouchOffset, MoveFlags.idle]
  have i4 : (tick [c4Box] (1/10) (0, 0))^[4] c4startAmended =
      c4state 5 8 (-8) := by
    rw [show (4 : ℕ) = 3 + 1 from rfl, Function.iterate_succ_apply', i3]
    norm_num [tick, fallbackStep, verticalStep, upBranch, downBranch, horizontalStep,
      getValidMovement, checkHorizontalCollision, checkVerticalCollision, boxFromCenterSize,
      Box3.intersects, List.any, List.find?, c4Box, c4state, c4startClaim, c4startAmended, addCollisionBox, cameraBoxSize,
      gravity, groundHeight, currentGroundOf, crouchOffset, MoveFlags.idle]
  have i5 : (tick [c4Box] (1/10) (0, 0))^[5] c4startAmended =
      c4state 5 7 (-10) := by
    rw [show (5 : ℕ) = 4 + 1 from rfl, Function.iterate_succ_apply', i4]
    norm_num [tick, fallbackStep, verticalStep, upBranch, downBranch, horizontalStep,
      getValidMovement, checkHorizontalCollision, checkVerticalCollision, boxFromCenterSize,
      Box3.intersects, List.any, List.find?, c4Box, c4state, c4startClaim, c4startAmended, addCollisionBox, cameraBoxSize,
      gravity, groundHeight, currentGroundOf, crouchOffset, MoveFlags.idle]
  have i6 : (tick [c4Box] (1/10) (0, 0))^[6] c4startAmended =
      c4state 5 5 0 := by
    rw [show (6 : ℕ) = 5 + 1 from rfl, Function.iterate_succ_apply', i5]
    norm_num [tick, fallbackStep, verticalStep, upBranch, downBranch, horizontalStep,
      getValidMovement, checkHorizontalCollision, checkVerticalCollision, boxFromCenterSize,
      Box3.intersects, List.any, List.find?, c4Box, c4state, c4startClaim, c4startAmended, addCollisionBox, cameraBoxSize,
      gravity, groundHeight, currentGroundOf, crouchOffset, MoveFlags.idle]
  refine ⟨by rw [i6]; norm_num [c4state, c4Box, addCollisionBox], by rw [i6]; rfl,
    by rw [i6]; rfl, by rw [i6]; rfl, ?_⟩
  rw [i6]
  norm_num [tick, fallbackStep, verticalStep, upBranch, downBranch, horizontalStep,
      getValidMovement, checkHorizontalCollision, checkVerticalCollision, boxFromCenterSize,
      Box3.intersects, List.any, List.find?, c4Box, c4state, c4startClaim, c4startAmended, addCollisionBox, cameraBoxSize,
      gravity, groundHeight, currentGroundOf, crouchOffset, MoveFlags.idle]

theorem Qrt2_mul_def (x y : Qrt2) :
    x * y = ⟨x.ra * y.ra + 2 * (x.rb * y.rb), x.ra * y.rb + x.rb * y.ra⟩ := rfl

theorem Qrt2_add_def (x y : Qrt2) : x + y = ⟨x.ra + y.ra, x.rb + y.rb⟩ := rfl

theorem Qrt2_one_def : (1 : Qrt2) = ⟨1, 0⟩ := rfl

theorem Qrt2_neg_ra (x : Qrt2) : (-x).ra = -x.ra := rfl

theorem Qrt2_neg_rb (x : Qrt2) : (-x).rb = -x.rb := rfl

theorem Qrt2_one_ra : (1 : Qrt2).ra = 1 := rfl

theorem Qrt2_one_rb : (1 : Qrt2).rb = 0 := rfl

theorem Qrt2_zero_ra : (0 : Qrt2).ra = 0 := rfl

theorem Qrt2_zero_rb : (0 : Qrt2).rb = 0 := rfl

/-- Core of the diagonal-normalisation property: a unit direction moved at
`dist` along an orthonormal camera frame covers squared distance `dist²`,
whatever the direction. -/
theorem dispVec_magSq {α : Type} [CommRing α] (f d : Vec2 α) (dist : α)
    (hf : magSq f = 1) (hd : magSq d = 1) :
    magSq (dispVec f d dist) = dist * dist := by
  simp only [magSq, dispVec, rightOf] at hf hd ⊢
  linear_combination (dist * dist * (d.x * d.x + d.z * d.z)) * hf + dist * dist * hd

/-- Claim C9: for a fixed frame time, speed, and camera orientation, and with
no colliders in the way, the horizontal displacement from holding forward and
right together has the same magnitude as the displacement from holding forward
alone — both squared magnitudes equal `(speed * dt)²`, not 2× that — and with
an empty registry the sliding resolver accepts the displaced position as is. -/
theorem C9_diagonal_normalization (α : Type) [CommRing α] (f dFR dF : Vec2 α) (dist : α)
    (hf : magSq f = 1)
    (hFR : IsNormalizationOf (dirFromFlags forwardRightFlags) dFR)
    (hF : IsNormalizationOf (dirFromFlags forwardFlags) dF) :
    (magSq (dispVec f dFR dist) = dist * dist ∧
      magSq (dispVec f dF dist) = dist * dist) ∧
    (∀ cur des : Vec3, getValidMovement [] cur des = des) := by
  refine ⟨⟨dispVec_magSq f dFR dist hf hFR.1, dispVec_magSq f dF dist hf hF.1⟩, ?_⟩
  intro cur des
  simp [getValidMovement, checkHorizontalCollision]

theorem C9_diagonal_normalization_witness :
    magSq (dispVec c9forward c9diagDir c9dist) = c9dist * c9dist ∧
    magSq (dispVec c9forward c9fwdDir c9dist) = c9dist * c9dist := by
  have h := C9_diagonal_normalization Qrt2 c9forward c9diagDir c9fwdDir c9dist
    (by apply Qrt2.ext <;> norm_num [magSq, c9forward, Qrt2_mul_def, Qrt2_add_def,
      Qrt2_neg_ra, Qrt2_neg_rb, Qrt2_one_ra, Qrt2_one_rb, Qrt2_zero_ra, Qrt2_zero_rb])
    (⟨by apply Qrt2.ext <;> norm_num [magSq, c9diagDir, Qrt2_mul_def, Qrt2_add_def,
      Qrt2_neg_ra, Qrt2_neg_rb, Qrt2_one_ra, Qrt2_one_rb, Qrt2_zero_ra, Qrt2_zero_rb],
      ⟨⟨0, 1/2⟩, by apply Qrt2.ext <;> norm_num [c9diagDir, dirFromFlags, forwardRightFlags,
        Qrt2_mul_def, Qrt2_add_def, Qrt2_neg_ra, Qrt2_neg_rb, Qrt2_one_ra, Qrt2_one_rb,
        Qrt2_zero_ra, Qrt2_zero_rb],
        by apply Qrt2.ext <;> norm_num [c9diagDir, dirFromFlags, forwardRightFlags,
          Qrt2_mul_def, Qrt2_add_def, Qrt2_neg_ra, Qrt2_neg_rb, Qrt2_one_ra, Qrt2_one_rb,
          Qrt2_zero_ra, Qrt2_zero_rb]⟩⟩)
    (⟨by apply Qrt2.ext <;> norm_num [magSq, c9fwdDir, Qrt2_mul_def, Qrt2_add_def,
      Qrt2_neg_ra, Qrt2_neg_rb, Qrt2_one_ra, Qrt2_one_rb, Qrt2_zero_ra, Qrt2_zero_rb],
      ⟨1, by apply Qrt2.ext <;> norm_num [c9fwdDir, dirFromFlags, forwardFlags,
        Qrt2_mul_def, Qrt2_add_def, Qrt2_neg_ra, Qrt2_neg_rb, Qrt2_one_ra, Qrt2_one_rb,
        Qrt2_zero_ra, Qrt2_zero_rb],
        by apply Qrt2.ext <;> norm_num [c9fwdDir, dirFromFlags, forwardFlags,
          Qrt2_mul_def, Qrt2_add_def, Qrt2_neg_ra, Qrt2_neg_rb, Qrt2_one_ra, Qrt2_one_rb,
          Qrt2_zero_ra, Qrt2_zero_rb]⟩⟩)
  exact h.1
